import Mathlib

/-!
Shallow embedding of the provisioning workflow controller in `src/src/App.tsx`
(the VAPI agent creator). The component drives three remote calls in order
(create assistant, purchase phone number, associate number), tracking a
discrete step state, an optional error message and an optional result.

Remote transport is modelled by an environment of per-call outcomes: a call
either succeeds with its parsed body value, fails with a non-2xx status whose
body may carry a `message` field, or throws (network-level failure or a body
that fails to parse); a thrown value records whether it is an `Error` instance
and its message, mirroring the `err instanceof Error` test in the catch block.
-/

namespace VapiAgent

/-- The `Step` union type of `App.tsx` line 4. -/
inductive Step where
  | idle
  | creatingAssistant
  | purchasingNumber
  | associating
  | complete
  | error
deriving DecidableEq, Repr, Fintype

/-- The `AgentResult` interface of `App.tsx` lines 6-11. -/
structure AgentResult where
  assistantId : String
  phoneNumberId : String
  phoneNumber : String
  agentName : String
deriving DecidableEq, Repr

/-- JS `String.prototype.trim`: strip leading and trailing whitespace. -/
def jsTrim (s : String) : String :=
  ⟨((s.data.dropWhile Char.isWhitespace).reverse.dropWhile Char.isWhitespace).reverse⟩

/-- JS string truthiness fallback `a || b`: the empty string is falsy. -/
def jsOrStr (a b : String) : String := if a = "" then b else a

/-- JS `errorData.message || fallback` where the `message` field may be
absent (body unparseable, so `errorData` is the empty object, or parseable
without a `message` field). -/
def jsOrMsg (m : Option String) (fallback : String) : String :=
  match m with
  | some s => jsOrStr s fallback
  | none => fallback

/-- `generateSystemPrompt` of `App.tsx` lines 21-32: fixed preamble, the
user description, then the fixed guideline block. -/
def generateSystemPrompt (description : String) : String :=
  "You are an AI assistant created with the following purpose and behavior:\n\n"
    ++ description
    ++ "\n\nGuidelines:\n- Be helpful, professional, and conversational\n- Stay focused on your defined purpose\n- If asked about topics outside your scope, politely redirect the conversation\n- Be concise but thorough in your responses\n- Maintain a friendly and approachable tone"

/-- The JSON body sent by `createAssistant` (`App.tsx` lines 41-58). -/
structure AssistantRequest where
  name : String
  modelProvider : String
  modelName : String
  systemPrompt : String
  voiceProvider : String
  voiceId : String
  firstMessage : String
deriving DecidableEq, Repr

/-- Builds the create-assistant request body from the form fields, with the
JS truthiness fallbacks of `App.tsx` lines 42 and 57. -/
def assistantRequestOf (agentName prompt : String) : AssistantRequest :=
  { name := jsOrStr agentName "VAPI Agent",
    modelProvider := "openai",
    modelName := "gpt-4o",
    systemPrompt := generateSystemPrompt prompt,
    voiceProvider := "11labs",
    voiceId := "sarah",
    firstMessage := "Hello! I\x27m " ++ jsOrStr agentName "your AI assistant"
      ++ ". How can I help you today?" }

/-- The JSON body sent by `purchasePhoneNumber` (`App.tsx` lines 78-81). -/
structure PurchaseRequest where
  areaCode : String
  name : String
deriving DecidableEq, Repr

/-- Builds the purchase-number request body (`App.tsx` lines 78-81). -/
def purchaseRequestOf (agentName : String) : PurchaseRequest :=
  { areaCode := "415", name := jsOrStr agentName "VAPI Agent Number" }

/-- A thrown JS value: whether it is an `Error` instance, and its message.
The catch block of `handleSubmit` inspects exactly these two pieces. -/
structure Thrown where
  isErrorInstance : Bool
  message : String
deriving DecidableEq, Repr

/-- The outcome the environment assigns to one remote call: a 2xx response
whose body parses to `α`, a non-2xx response with its status and the optional
`message` field of its (best-effort parsed) body, or a thrown failure
(rejected fetch, or a body that fails to parse). -/
inductive CallOutcome (α : Type) where
  | success : α → CallOutcome α
  | httpFailure : Nat → Option String → CallOutcome α
  | exn : Bool → String → CallOutcome α
deriving DecidableEq, Repr

/-- Whether the outcome makes the call fail (anything but `success`). -/
def CallOutcome.isFailure {α : Type} : CallOutcome α → Bool
  | .success _ => false
  | .httpFailure _ _ => true
  | .exn _ _ => true

/-- `createAssistant` of `App.tsx` lines 34-68, as a function of its
outcome: on a non-2xx response it throws
`new Error(errorData.message || "Failed to create assistant: status")`. -/
def createAssistant (outcome : CallOutcome String) : Except Thrown String :=
  match outcome with
  | .success id => .ok id
  | .httpFailure status msg =>
      .error ⟨true, jsOrMsg msg ("Failed to create assistant: " ++ toString status)⟩
  | .exn isErr m => .error ⟨isErr, m⟩

/-- `purchasePhoneNumber` of `App.tsx` lines 70-91; success yields
`(data.id, data.number)`. -/
def purchasePhoneNumber (outcome : CallOutcome (String × String)) :
    Except Thrown (String × String) :=
  match outcome with
  | .success v => .ok v
  | .httpFailure status msg =>
      .error ⟨true, jsOrMsg msg ("Failed to purchase phone number: " ++ toString status)⟩
  | .exn isErr m => .error ⟨isErr, m⟩

/-- `associatePhoneNumber` of `App.tsx` lines 93-109. -/
def associatePhoneNumber (outcome : CallOutcome Unit) : Except Thrown Unit :=
  match outcome with
  | .success _ => .ok ()
  | .httpFailure status msg =>
      .error ⟨true, jsOrMsg msg ("Failed to associate phone number: " ++ toString status)⟩
  | .exn isErr m => .error ⟨isErr, m⟩

/-- A remote call as issued, with its request payload (the bearer-token
header and URL are transport mechanics carried by every call alike). -/
inductive RemoteCall where
  | createAssistantCall : AssistantRequest → RemoteCall
  | purchaseNumberCall : PurchaseRequest → RemoteCall
  | associateNumberCall : (phoneNumberId : String) → (assistantId : String) → RemoteCall
deriving DecidableEq, Repr

/-- Which of the three operations a remote call is. -/
inductive CallKind where
  | create
  | purchase
  | associate
deriving DecidableEq, Repr, Fintype

/-- The operation of a recorded call. -/
def RemoteCall.kind : RemoteCall → CallKind
  | .createAssistantCall _ => .create
  | .purchaseNumberCall _ => .purchase
  | .associateNumberCall _ _ => .associate

/-- The component state touched by `handleSubmit`: the three form fields and
the `step`, `error`, `result` hooks of `App.tsx` lines 14-19. -/
structure AppState where
  prompt : String
  agentName : String
  apiKey : String
  step : Step
  error : Option String
  result : Option AgentResult
deriving DecidableEq, Repr

/-- The environment: the outcome each of the three remote calls would have
if issued during this run. -/
structure Env where
  createOutcome : CallOutcome String
  purchaseOutcome : CallOutcome (String × String)
  associateOutcome : CallOutcome Unit
deriving DecidableEq, Repr

/-- What one run of `handleSubmit` does: the final component state, the
remote calls issued in order, and the `setStep` values in order. -/
structure SubmitRun where
  final : AppState
  calls : List RemoteCall
  stepTrace : List Step
deriving DecidableEq, Repr

/-- The message stored by the catch block of `App.tsx` line 164:
`err instanceof Error ? err.message : "An unexpected error occurred"`. -/
def caughtMessage (t : Thrown) : String :=
  if t.isErrorInstance then t.message else "An unexpected error occurred"

/-- `handleSubmit` of `App.tsx` lines 130-166. Validation first
(line 133: set the error and return without touching `step`); then clear
error and result, and run the three steps in order, each preceded by its
`setStep`; any thrown failure jumps to the catch block, which sets
`step = error` and stores `caughtMessage`. -/
def handleSubmit (s : AppState) (env : Env) : SubmitRun :=
  if jsTrim s.prompt = "" ∨ jsTrim s.apiKey = "" then
    { final := { s with error := some "Please fill in all required fields" },
      calls := [],
      stepTrace := [] }
  else
    let base : AppState := { s with error := none, result := none }
    let req := assistantRequestOf s.agentName s.prompt
    match createAssistant env.createOutcome with
    | .error t =>
        { final := { base with step := .error, error := some (caughtMessage t) },
          calls := [.createAssistantCall req],
          stepTrace := [.creatingAssistant, .error] }
    | .ok assistantId =>
        let preq := purchaseRequestOf s.agentName
        match purchasePhoneNumber env.purchaseOutcome with
        | .error t =>
            { final := { base with step := .error, error := some (caughtMessage t) },
              calls := [.createAssistantCall req, .purchaseNumberCall preq],
              stepTrace := [.creatingAssistant, .purchasingNumber, .error] }
        | .ok pv =>
            match associatePhoneNumber env.associateOutcome with
            | .error t =>
                { final := { base with step := .error, error := some (caughtMessage t) },
                  calls := [.createAssistantCall req, .purchaseNumberCall preq,
                            .associateNumberCall pv.1 assistantId],
                  stepTrace := [.creatingAssistant, .purchasingNumber, .associating, .error] }
            | .ok _ =>
                let res : AgentResult :=
                  { assistantId := assistantId,
                    phoneNumberId := pv.1,
                    phoneNumber := pv.2,
                    agentName := jsOrStr s.agentName "VAPI Agent" }
                { final := { base with step := .complete, result := some res },
                  calls := [.createAssistantCall req, .purchaseNumberCall preq,
                            .associateNumberCall pv.1 assistantId],
                  stepTrace := [.creatingAssistant, .purchasingNumber, .associating, .complete] }

/-- The status classes computed by `getStepStatus`. -/
inductive StepStatus where
  | completed
  | active
  | pending
deriving DecidableEq, Repr, Fintype

/-- The `stepOrder` array of `App.tsx` line 169. -/
def stepOrder : List Step :=
  [.creatingAssistant, .purchasingNumber, .associating, .complete]

/-- JS `Array.prototype.indexOf`: the index of the first occurrence, or -1
when absent. -/
def jsIndexOf (l : List Step) (x : Step) : Int :=
  match l.findIdx? (fun y => y == x) with
  | some i => (i : Int)
  | none => -1

/-- `getStepStatus` of `App.tsx` lines 168-177. -/
def getStepStatus (step targetStep : Step) : StepStatus :=
  let currentIndex := jsIndexOf stepOrder step
  let targetIndex := jsIndexOf stepOrder targetStep
  if currentIndex = -1 then .pending
  else if targetIndex < currentIndex then .completed
  else if targetIndex = currentIndex then .active
  else .pending

/-- The failure part of a call outcome, with the payload type erased. -/
inductive FailInfo where
  | http : Nat → Option String → FailInfo
  | thrown : Bool → String → FailInfo
deriving DecidableEq, Repr

/-- The failure information carried by an outcome, if any. -/
def CallOutcome.failInfo {α : Type} : CallOutcome α → Option FailInfo
  | .success _ => none
  | .httpFailure status msg => some (.http status msg)
  | .exn isErr m => some (.thrown isErr m)

/-- The first call, in execution order, whose outcome is a failure: the one
whose failure surfaces as the run's error message (execution reaches a call
only after every earlier call succeeded). -/
def firstFailure (env : Env) : Option (CallKind × FailInfo) :=
  match env.createOutcome.failInfo with
  | some f => some (CallKind.create, f)
  | none =>
    match env.purchaseOutcome.failInfo with
    | some f => some (CallKind.purchase, f)
    | none => env.associateOutcome.failInfo.map (fun f => (CallKind.associate, f))

/-- The per-step generic failure text, to which the numeric status code is
appended when the response body yields no usable message. -/
def fallbackText : CallKind → String
  | .create => "Failed to create assistant: "
  | .purchase => "Failed to purchase phone number: "
  | .associate => "Failed to associate phone number: "

/-- The operations a run invoked, in order. -/
def callKinds (r : SubmitRun) : List CallKind := r.calls.map RemoteCall.kind

/-! Concrete fixtures used to exercise the embedding. -/

/-- The end-to-end scenario input of the spec. -/
def coffeeState : AppState :=
  { prompt := "Answer coffee shop questions", agentName := "Coffee Bot",
    apiKey := "sk_test_123", step := .idle, error := none, result := none }

/-- All three calls succeed, with the ids of the end-to-end scenario. -/
def coffeeEnv : Env :=
  { createOutcome := .success "a1",
    purchaseOutcome := .success ("p1", "+14155551234"),
    associateOutcome := .success () }

/-- The scenario input with the optional display name omitted. -/
def noNameState : AppState := { coffeeState with agentName := "" }

/-- The scenario input with a whitespace-only description. -/
def blankPromptState : AppState := { coffeeState with prompt := "   " }

/-- A fresh form: everything empty, step `idle`. -/
def emptyIdleState : AppState :=
  { prompt := "", agentName := "", apiKey := "", step := .idle,
    error := none, result := none }

/-- create-assistant answers 500 with body `{message: ""}`. -/
def envCreateHttpEmptyMsg : Env :=
  { coffeeEnv with createOutcome := .httpFailure 500 (some "") }

/-- create-assistant answers 500 with body `{message: "quota exceeded"}`. -/
def envCreateHttpMsg : Env :=
  { coffeeEnv with createOutcome := .httpFailure 500 (some "quota exceeded") }

/-- create-assistant answers 500 with an unparseable body. -/
def envCreateHttpNoMsg : Env :=
  { coffeeEnv with createOutcome := .httpFailure 500 none }

/-- The create-assistant fetch rejects with a network-level TypeError
(an `Error` instance whose message is the browser text `Failed to fetch`). -/
def envCreateNetworkErr : Env :=
  { coffeeEnv with createOutcome := .exn true "Failed to fetch" }

/-- The create-assistant step throws a value that is not an `Error`
instance. -/
def envCreateThrownNonError : Env :=
  { coffeeEnv with createOutcome := .exn false "boom" }

/-- associate-number answers 402 with an unparseable body, after the first
two calls succeeded. -/
def envAssocFail : Env :=
  { coffeeEnv with associateOutcome := .httpFailure 402 none }

/-! Shared characterization lemmas. -/

/-- The JS value thrown for a failing call of the given operation. -/
def thrownOf (k : CallKind) : FailInfo → Thrown
  | .http status msg => ⟨true, jsOrMsg msg (fallbackText k ++ toString status)⟩
  | .thrown isErr m => ⟨isErr, m⟩

/-- On valid input, a run whose first failing call (in execution order) is
known ends in the `error` step with the message of the value that call
throws. -/
lemma final_error_of_firstFailure (s : AppState) (env : Env)
    (hval : ¬(jsTrim s.prompt = "" ∨ jsTrim s.apiKey = ""))
    (k : CallKind) (f : FailInfo)
    (hf : firstFailure env = some (k, f)) :
    (handleSubmit s env).final.step = Step.error ∧
    (handleSubmit s env).final.error = some (caughtMessage (thrownOf k f)) := by
  cases hc : env.createOutcome with
  | httpFailure st m =>
      have hf2 : firstFailure env = some (CallKind.create, FailInfo.http st m) := by
        simp [firstFailure, CallOutcome.failInfo, hc]
      rw [hf2] at hf
      simp only [Option.some.injEq, Prod.mk.injEq] at hf
      obtain ⟨hk, hfi⟩ := hf
      subst hk
      subst hfi
      simp [handleSubmit, if_neg hval, hc, createAssistant, thrownOf, fallbackText]
  | exn b m =>
      have hf2 : firstFailure env = some (CallKind.create, FailInfo.thrown b m) := by
        simp [firstFailure, CallOutcome.failInfo, hc]
      rw [hf2] at hf
      simp only [Option.some.injEq, Prod.mk.injEq] at hf
      obtain ⟨hk, hfi⟩ := hf
      subst hk
      subst hfi
      simp [handleSubmit, if_neg hval, hc, createAssistant, thrownOf]
  | success aid =>
      cases hp : env.purchaseOutcome with
      | httpFailure st m =>
          have hf2 : firstFailure env = some (CallKind.purchase, FailInfo.http st m) := by
            simp [firstFailure, CallOutcome.failInfo, hc, hp]
          rw [hf2] at hf
          simp only [Option.some.injEq, Prod.mk.injEq] at hf
          obtain ⟨hk, hfi⟩ := hf
          subst hk
          subst hfi
          simp [handleSubmit, if_neg hval, hc, hp, createAssistant,
            purchasePhoneNumber, thrownOf, fallbackText]
      | exn b m =>
          have hf2 : firstFailure env = some (CallKind.purchase, FailInfo.thrown b m) := by
            simp [firstFailure, CallOutcome.failInfo, hc, hp]
          rw [hf2] at hf
          simp only [Option.some.injEq, Prod.mk.injEq] at hf
          obtain ⟨hk, hfi⟩ := hf
          subst hk
          subst hfi
          simp [handleSubmit, if_neg hval, hc, hp, createAssistant,
            purchasePhoneNumber, thrownOf]
      | success pv =>
          cases ha : env.associateOutcome with
          | httpFailure st m =>
              have hf2 : firstFailure env =
                  some (CallKind.associate, FailInfo.http st m) := by
                simp [firstFailure, CallOutcome.failInfo, hc, hp, ha]
              rw [hf2] at hf
              simp only [Option.some.injEq, Prod.mk.injEq] at hf
              obtain ⟨hk, hfi⟩ := hf
              subst hk
              subst hfi
              simp [handleSubmit, if_neg hval, hc, hp, ha, createAssistant,
                purchasePhoneNumber, associatePhoneNumber, thrownOf, fallbackText]
          | exn b m =>
              have hf2 : firstFailure env =
                  some (CallKind.associate, FailInfo.thrown b m) := by
                simp [firstFailure, CallOutcome.failInfo, hc, hp, ha]
              rw [hf2] at hf
              simp only [Option.some.injEq, Prod.mk.injEq] at hf
              obtain ⟨hk, hfi⟩ := hf
              subst hk
              subst hfi
              simp [handleSubmit, if_neg hval, hc, hp, ha, createAssistant,
                purchasePhoneNumber, associatePhoneNumber, thrownOf]
          | success u =>
              have hf2 : firstFailure env = none := by
                simp [firstFailure, CallOutcome.failInfo, hc, hp, ha]
              rw [hf2] at hf
              exact absurd hf (by simp)

/-- On valid input with all three calls succeeding, the whole run is
determined: calls in order with their request bodies, the full forward step
trace, and the final state `complete` with the populated result. -/
lemma handleSubmit_all_success (s : AppState) (env : Env)
    (hval : ¬(jsTrim s.prompt = "" ∨ jsTrim s.apiKey = ""))
    (aid : String) (pv : String × String)
    (hc : env.createOutcome = .success aid)
    (hp : env.purchaseOutcome = .success pv)
    (ha : env.associateOutcome = .success ()) :
    handleSubmit s env =
      { final := { prompt := s.prompt, agentName := s.agentName, apiKey := s.apiKey,
                   step := .complete, error := none,
                   result := some { assistantId := aid, phoneNumberId := pv.1,
                                    phoneNumber := pv.2,
                                    agentName := jsOrStr s.agentName "VAPI Agent" } },
        calls := [.createAssistantCall (assistantRequestOf s.agentName s.prompt),
                  .purchaseNumberCall (purchaseRequestOf s.agentName),
                  .associateNumberCall pv.1 aid],
        stepTrace := [.creatingAssistant, .purchasingNumber, .associating,
                      .complete] } := by
  simp [handleSubmit, if_neg hval, hc, hp, ha, createAssistant,
    purchasePhoneNumber, associatePhoneNumber]

/-! Claim theorems. -/

/-- Claim C1: if a step remote call is invoked and fails, the sequence
aborts immediately: no later call is invoked, the final state is `error`,
and no result is produced (for each of the three steps). -/
theorem submit_aborts_on_step_failure (s : AppState) (env : Env) :
    (CallKind.create ∈ callKinds (handleSubmit s env) →
      env.createOutcome.isFailure = true →
        callKinds (handleSubmit s env) = [CallKind.create] ∧
        (handleSubmit s env).final.step = Step.error ∧
        (handleSubmit s env).final.result = none) ∧
    (CallKind.purchase ∈ callKinds (handleSubmit s env) →
      env.purchaseOutcome.isFailure = true →
        callKinds (handleSubmit s env) = [CallKind.create, CallKind.purchase] ∧
        (handleSubmit s env).final.step = Step.error ∧
        (handleSubmit s env).final.result = none) ∧
    (CallKind.associate ∈ callKinds (handleSubmit s env) →
      env.associateOutcome.isFailure = true →
        callKinds (handleSubmit s env) =
          [CallKind.create, CallKind.purchase, CallKind.associate] ∧
        (handleSubmit s env).final.step = Step.error ∧
        (handleSubmit s env).final.result = none) := by
  by_cases hval : jsTrim s.prompt = "" ∨ jsTrim s.apiKey = ""
  · refine ⟨?_, ?_, ?_⟩ <;> intro hmem hfail <;>
      simp [handleSubmit, if_pos hval, callKinds] at hmem
  · refine ⟨?_, ?_, ?_⟩ <;> intro hmem hfail
    · cases hc : env.createOutcome with
      | success a =>
          rw [hc] at hfail
          simp [CallOutcome.isFailure] at hfail
      | httpFailure st m =>
          simp [handleSubmit, if_neg hval, hc, createAssistant, callKinds,
            RemoteCall.kind]
      | exn b m =>
          simp [handleSubmit, if_neg hval, hc, createAssistant, callKinds,
            RemoteCall.kind]
    · cases hc : env.createOutcome with
      | success a =>
          cases hp : env.purchaseOutcome with
          | success pv =>
              rw [hp] at hfail
              simp [CallOutcome.isFailure] at hfail
          | httpFailure st m =>
              simp [handleSubmit, if_neg hval, hc, hp, createAssistant,
                purchasePhoneNumber, callKinds, RemoteCall.kind]
          | exn b m =>
              simp [handleSubmit, if_neg hval, hc, hp, createAssistant,
                purchasePhoneNumber, callKinds, RemoteCall.kind]
      | httpFailure st m =>
          simp [handleSubmit, if_neg hval, hc, createAssistant, callKinds,
            RemoteCall.kind] at hmem
      | exn b m =>
          simp [handleSubmit, if_neg hval, hc, createAssistant, callKinds,
            RemoteCall.kind] at hmem
    · cases hc : env.createOutcome with
      | success a =>
          cases hp : env.purchaseOutcome with
          | success pv =>
              cases ha : env.associateOutcome with
              | success u =>
                  rw [ha] at hfail
                  simp [CallOutcome.isFailure] at hfail
              | httpFailure st m =>
                  simp [handleSubmit, if_neg hval, hc, hp, ha, createAssistant,
                    purchasePhoneNumber, associatePhoneNumber, callKinds,
                    RemoteCall.kind]
              | exn b m =>
                  simp [handleSubmit, if_neg hval, hc, hp, ha, createAssistant,
                    purchasePhoneNumber, associatePhoneNumber, callKinds,
                    RemoteCall.kind]
          | httpFailure st m =>
              simp [handleSubmit, if_neg hval, hc, hp, createAssistant,
                purchasePhoneNumber, callKinds, RemoteCall.kind] at hmem
          | exn b m =>
              simp [handleSubmit, if_neg hval, hc, hp, createAssistant,
                purchasePhoneNumber, callKinds, RemoteCall.kind] at hmem
      | httpFailure st m =>
          simp [handleSubmit, if_neg hval, hc, createAssistant, callKinds,
            RemoteCall.kind] at hmem
      | exn b m =>
          simp [handleSubmit, if_neg hval, hc, createAssistant, callKinds,
            RemoteCall.kind] at hmem

/-- Witness for C1: create-assistant fails with a 500, so only the create
call is issued, the run ends in `error`, and no result is produced. -/
theorem submit_aborts_on_step_failure_witness :
    callKinds (handleSubmit coffeeState envCreateHttpNoMsg) = [CallKind.create] ∧
    (handleSubmit coffeeState envCreateHttpNoMsg).final.step = Step.error ∧
    (handleSubmit coffeeState envCreateHttpNoMsg).final.result = none :=
  (submit_aborts_on_step_failure coffeeState envCreateHttpNoMsg).1
    (by decide) (by decide)

/-- Claim C2: for a queried step in the ordered list, the status is
`completed` when its index is strictly below the index of the current
state, `active` when equal, `pending` otherwise; and every state outside
the ordered list (idle or error) maps every queried step to `pending`. -/
theorem getStepStatus_index_rule :
    (∀ cur tgt : Step, cur ∈ stepOrder → tgt ∈ stepOrder →
      getStepStatus cur tgt =
        (if stepOrder.indexOf tgt < stepOrder.indexOf cur then StepStatus.completed
         else if stepOrder.indexOf tgt = stepOrder.indexOf cur then StepStatus.active
         else StepStatus.pending)) ∧
    (∀ cur tgt : Step, cur ∉ stepOrder → getStepStatus cur tgt = StepStatus.pending) := by
  decide

/-- Witness for C2: with the current state `associating`, the earlier step
`creatingAssistant` is classified by the index rule; from `idle` every
query is `pending`. -/
theorem getStepStatus_index_rule_witness :
    getStepStatus Step.associating Step.creatingAssistant =
      (if stepOrder.indexOf Step.creatingAssistant < stepOrder.indexOf Step.associating
       then StepStatus.completed
       else if stepOrder.indexOf Step.creatingAssistant = stepOrder.indexOf Step.associating
       then StepStatus.active else StepStatus.pending) ∧
    getStepStatus Step.idle Step.associating = StepStatus.pending :=
  ⟨getStepStatus_index_rule.1 Step.associating Step.creatingAssistant (by decide) (by decide),
   getStepStatus_index_rule.2 Step.idle Step.associating (by decide)⟩

/-- Claim C3: the end-to-end success scenario ends in state `complete` with
exactly the expected result record. -/
theorem submit_coffee_success :
    (handleSubmit coffeeState coffeeEnv).final.step = Step.complete ∧
    (handleSubmit coffeeState coffeeEnv).final.result =
      some { assistantId := "a1", phoneNumberId := "p1",
             phoneNumber := "+14155551234", agentName := "Coffee Bot" } := by
  decide

/-- Claim C4: when the description or the credential is empty after
trimming, the submit fails at once with the validation error, issues no
remote call, and leaves the workflow step unchanged. -/
theorem submit_invalid_input_no_remote_calls (s : AppState) (env : Env)
    (h : jsTrim s.prompt = "" ∨ jsTrim s.apiKey = "") :
    (handleSubmit s env).calls = [] ∧
    (handleSubmit s env).final.step = s.step ∧
    (handleSubmit s env).final.error = some "Please fill in all required fields" := by
  simp [handleSubmit, if_pos h]

/-- Witness for C4: a whitespace-only description issues no call and keeps
the step. -/
theorem submit_invalid_input_no_remote_calls_witness :
    (handleSubmit blankPromptState coffeeEnv).calls = [] ∧
    (handleSubmit blankPromptState coffeeEnv).final.step = blankPromptState.step ∧
    (handleSubmit blankPromptState coffeeEnv).final.error =
      some "Please fill in all required fields" :=
  submit_invalid_input_no_remote_calls blankPromptState coffeeEnv (by decide)

/-- Counterexample to C5 as stated: a submit attempt failing validation
sets the ErrorMessage while the state stays `idle`, so the message is
non-null in a non-error state and the attempt set rather than cleared it. -/
theorem errorMessage_without_error_state_cex :
    (handleSubmit emptyIdleState coffeeEnv).final.step = Step.idle ∧
    (handleSubmit emptyIdleState coffeeEnv).final.error ≠ none := by
  decide

/-- Claim C5 amended: after a submit attempt that passes validation, the
ErrorMessage is non-null iff the final state is `error`, and the attempt
clears any prior message (the final message does not depend on it). -/
theorem errorMessage_iff_error_after_valid_submit (s : AppState) (env : Env)
    (hval : ¬(jsTrim s.prompt = "" ∨ jsTrim s.apiKey = "")) :
    ((handleSubmit s env).final.error ≠ none ↔
      (handleSubmit s env).final.step = Step.error) ∧
    (∀ e : Option String,
      (handleSubmit { s with error := e } env).final.error =
        (handleSubmit s env).final.error) := by
  cases hc : env.createOutcome <;> cases hp : env.purchaseOutcome <;>
    cases ha : env.associateOutcome <;>
    exact ⟨by simp [handleSubmit, if_neg hval, hc, hp, ha, createAssistant,
        purchasePhoneNumber, associatePhoneNumber],
      fun e => by simp [handleSubmit, if_neg hval, hc, hp, ha, createAssistant,
        purchasePhoneNumber, associatePhoneNumber]⟩

/-- Witness for amended C5: in the all-success run, the final message is
null and the final state is not `error`. -/
theorem errorMessage_iff_error_after_valid_submit_witness :
    ((handleSubmit coffeeState coffeeEnv).final.error ≠ none ↔
      (handleSubmit coffeeState coffeeEnv).final.step = Step.error) :=
  (errorMessage_iff_error_after_valid_submit coffeeState coffeeEnv (by decide)).1

/-- Counterexample to C6 as stated: a non-2xx body whose `message` field is
the empty string is a parsed message field, yet the stored ErrorMessage is
the status fallback, not that message. -/
theorem empty_server_message_not_extracted_cex :
    firstFailure envCreateHttpEmptyMsg =
      some (CallKind.create, FailInfo.http 500 (some "")) ∧
    (handleSubmit coffeeState envCreateHttpEmptyMsg).final.error ≠ some "" ∧
    (handleSubmit coffeeState envCreateHttpEmptyMsg).final.error =
      some "Failed to create assistant: 500" := by
  decide

/-- Claim C6 amended: for the failing call that ends the run, a non-empty
parsed `message` field becomes the ErrorMessage verbatim; otherwise (body
unparseable, no message field, or empty message) the ErrorMessage is the
step generic text ending in the numeric status code. -/
theorem server_message_extraction_amended (s : AppState) (env : Env)
    (hval : ¬(jsTrim s.prompt = "" ∨ jsTrim s.apiKey = ""))
    (k : CallKind) (status : Nat) (msg : Option String)
    (hf : firstFailure env = some (k, FailInfo.http status msg)) :
    (handleSubmit s env).final.step = Step.error ∧
    (handleSubmit s env).final.error =
      some (match msg with
            | some m => if m = "" then fallbackText k ++ toString status else m
            | none => fallbackText k ++ toString status) := by
  obtain ⟨hstep, herr⟩ := final_error_of_firstFailure s env hval k (.http status msg) hf
  refine ⟨hstep, ?_⟩
  rw [herr]
  cases msg with
  | none => simp [thrownOf, caughtMessage, jsOrMsg]
  | some m => simp [thrownOf, caughtMessage, jsOrMsg, jsOrStr]

/-- Witness for amended C6: the body `message` field quota exceeded is
stored verbatim. -/
theorem server_message_extraction_amended_witness :
    (handleSubmit coffeeState envCreateHttpMsg).final.step = Step.error ∧
    (handleSubmit coffeeState envCreateHttpMsg).final.error =
      some "quota exceeded" := by
  have h := server_message_extraction_amended coffeeState envCreateHttpMsg
    (by decide) CallKind.create 500 (some "quota exceeded") (by decide)
  exact ⟨h.1, h.2⟩

set_option maxRecDepth 65536 in
/-- Counterexample to C7 as stated: with the name omitted, the result
agentName is the fallback VAPI Agent, but the greeting sent in the
create-assistant request interpolates a different fallback and the system
prompt never mentions the fallback name at all. -/
theorem fallback_name_not_in_greeting_cex :
    (handleSubmit noNameState coffeeEnv).final.result =
      some { assistantId := "a1", phoneNumberId := "p1",
             phoneNumber := "+14155551234", agentName := "VAPI Agent" } ∧
    (handleSubmit noNameState coffeeEnv).calls.head? =
      some (RemoteCall.createAssistantCall
        (assistantRequestOf "" "Answer coffee shop questions")) ∧
    ¬ ("VAPI Agent".data <:+:
        (assistantRequestOf "" "Answer coffee shop questions").firstMessage.data) ∧
    ¬ ("VAPI Agent".data <:+:
        (assistantRequestOf "" "Answer coffee shop questions").systemPrompt.data) := by
  decide

/-- Claim C7 amended: with the name omitted, the result agentName and the
request name field are the fixed fallback VAPI Agent, while the greeting
interpolates the distinct generic fallback your AI assistant and the system
prompt is built from the description alone. -/
theorem missing_name_fallback_amended (s : AppState) (env : Env)
    (hname : s.agentName = "")
    (hval : ¬(jsTrim s.prompt = "" ∨ jsTrim s.apiKey = ""))
    (aid : String) (pv : String × String)
    (hc : env.createOutcome = .success aid)
    (hp : env.purchaseOutcome = .success pv)
    (ha : env.associateOutcome = .success ()) :
    (handleSubmit s env).final.result =
      some { assistantId := aid, phoneNumberId := pv.1, phoneNumber := pv.2,
             agentName := "VAPI Agent" } ∧
    (handleSubmit s env).calls.head? =
      some (RemoteCall.createAssistantCall
        { name := "VAPI Agent",
          modelProvider := "openai", modelName := "gpt-4o",
          systemPrompt := generateSystemPrompt s.prompt,
          voiceProvider := "11labs", voiceId := "sarah",
          firstMessage := "Hello! I\x27m your AI assistant. How can I help you today?" }) := by
  rw [handleSubmit_all_success s env hval aid pv hc hp ha]
  refine ⟨by simp [hname, jsOrStr], ?_⟩
  simp only [List.head?_cons, Option.some.injEq]
  simp [assistantRequestOf, hname, jsOrStr]

/-- Witness for amended C7, at the end-to-end scenario with the name
omitted. -/
theorem missing_name_fallback_amended_witness :
    (handleSubmit noNameState coffeeEnv).final.result =
      some { assistantId := "a1", phoneNumberId := "p1",
             phoneNumber := "+14155551234", agentName := "VAPI Agent" } ∧
    (handleSubmit noNameState coffeeEnv).calls.head? =
      some (RemoteCall.createAssistantCall
        { name := "VAPI Agent",
          modelProvider := "openai", modelName := "gpt-4o",
          systemPrompt := generateSystemPrompt noNameState.prompt,
          voiceProvider := "11labs", voiceId := "sarah",
          firstMessage := "Hello! I\x27m your AI assistant. How can I help you today?" }) :=
  missing_name_fallback_amended noNameState coffeeEnv rfl (by decide)
    "a1" ("p1", "+14155551234") rfl rfl rfl

/-- Counterexample to C8 as stated: a network-level fetch rejection is a
TypeError, an Error instance, so its own message Failed to fetch is stored
rather than the generic unexpected-error text. -/
theorem non_http_failure_generic_message_cex :
    (handleSubmit coffeeState envCreateNetworkErr).final.step = Step.error ∧
    (handleSubmit coffeeState envCreateNetworkErr).final.error ≠
      some "An unexpected error occurred" ∧
    (handleSubmit coffeeState envCreateNetworkErr).final.error =
      some "Failed to fetch" := by
  decide

/-- Claim C8 amended: a thrown (non-HTTP) failure ends the run in `error`;
the ErrorMessage is the thrown message when the value is an Error instance,
and the generic unexpected-error text only when it is not. -/
theorem non_http_failure_message_amended (s : AppState) (env : Env)
    (hval : ¬(jsTrim s.prompt = "" ∨ jsTrim s.apiKey = ""))
    (k : CallKind) (isErr : Bool) (m : String)
    (hf : firstFailure env = some (k, FailInfo.thrown isErr m)) :
    (handleSubmit s env).final.step = Step.error ∧
    (handleSubmit s env).final.error =
      some (if isErr then m else "An unexpected error occurred") := by
  obtain ⟨hstep, herr⟩ :=
    final_error_of_firstFailure s env hval k (.thrown isErr m) hf
  exact ⟨hstep, by rw [herr]; simp [thrownOf, caughtMessage]⟩

/-- Witness for amended C8: a thrown non-Error value yields the generic
unexpected-error text. -/
theorem non_http_failure_message_amended_witness :
    (handleSubmit coffeeState envCreateThrownNonError).final.step = Step.error ∧
    (handleSubmit coffeeState envCreateThrownNonError).final.error =
      some "An unexpected error occurred" := by
  have h := non_http_failure_message_amended coffeeState envCreateThrownNonError
    (by decide) CallKind.create false "boom" (by decide)
  exact ⟨h.1, h.2⟩

/-- Claim C9: every run either changes nothing (validation failure), or
walks the ordered steps strictly forward from the first one, ending in
`error` after a nonempty forward prefix, or completing the whole order;
a rerun after an error therefore always restarts from the first step. -/
theorem workflow_transitions_strictly_forward (s : AppState) (env : Env) :
    ((handleSubmit s env).stepTrace = [] ∧ (handleSubmit s env).final.step = s.step) ∨
    (∃ k, 1 ≤ k ∧ k ≤ 3 ∧
      (handleSubmit s env).stepTrace = stepOrder.take k ++ [Step.error] ∧
      (handleSubmit s env).final.step = Step.error) ∨
    ((handleSubmit s env).stepTrace = stepOrder ∧
      (handleSubmit s env).final.step = Step.complete) := by
  by_cases hval : jsTrim s.prompt = "" ∨ jsTrim s.apiKey = ""
  · exact Or.inl (by simp [handleSubmit, if_pos hval])
  · cases hc : env.createOutcome with
    | success a =>
        cases hp : env.purchaseOutcome with
        | success pv =>
            cases ha : env.associateOutcome with
            | success u =>
                exact Or.inr (Or.inr (by
                  simp [handleSubmit, if_neg hval, hc, hp, ha, createAssistant,
                    purchasePhoneNumber, associatePhoneNumber, stepOrder]))
            | httpFailure st m =>
                exact Or.inr (Or.inl ⟨3, by omega, by omega, by
                  simp [handleSubmit, if_neg hval, hc, hp, ha, createAssistant,
                    purchasePhoneNumber, associatePhoneNumber, stepOrder], by
                  simp [handleSubmit, if_neg hval, hc, hp, ha, createAssistant,
                    purchasePhoneNumber, associatePhoneNumber]⟩)
            | exn b m =>
                exact Or.inr (Or.inl ⟨3, by omega, by omega, by
                  simp [handleSubmit, if_neg hval, hc, hp, ha, createAssistant,
                    purchasePhoneNumber, associatePhoneNumber, stepOrder], by
                  simp [handleSubmit, if_neg hval, hc, hp, ha, createAssistant,
                    purchasePhoneNumber, associatePhoneNumber]⟩)
        | httpFailure st m =>
            exact Or.inr (Or.inl ⟨2, by omega, by omega, by
              simp [handleSubmit, if_neg hval, hc, hp, createAssistant,
                purchasePhoneNumber, stepOrder], by
              simp [handleSubmit, if_neg hval, hc, hp, createAssistant,
                purchasePhoneNumber]⟩)
        | exn b m =>
            exact Or.inr (Or.inl ⟨2, by omega, by omega, by
              simp [handleSubmit, if_neg hval, hc, hp, createAssistant,
                purchasePhoneNumber, stepOrder], by
              simp [handleSubmit, if_neg hval, hc, hp, createAssistant,
                purchasePhoneNumber]⟩)
    | httpFailure st m =>
        exact Or.inr (Or.inl ⟨1, by omega, by omega, by
          simp [handleSubmit, if_neg hval, hc, createAssistant, stepOrder], by
          simp [handleSubmit, if_neg hval, hc, createAssistant]⟩)
    | exn b m =>
        exact Or.inr (Or.inl ⟨1, by omega, by omega, by
          simp [handleSubmit, if_neg hval, hc, createAssistant, stepOrder], by
          simp [handleSubmit, if_neg hval, hc, createAssistant]⟩)

/-- Claim C10: querying the step status with a step outside the ordered
list (idle or error) while the current state is inside the list yields
`completed`, because the JS indexOf of the queried step is -1. -/
theorem getStepStatus_unknown_target_completed :
    ∀ cur tgt : Step, cur ∈ stepOrder → tgt ∉ stepOrder →
      getStepStatus cur tgt = StepStatus.completed := by
  decide

/-- Witness for C10: querying `idle` while in `creatingAssistant` yields
`completed`. -/
theorem getStepStatus_unknown_target_completed_witness :
    getStepStatus Step.creatingAssistant Step.idle = StepStatus.completed :=
  getStepStatus_unknown_target_completed Step.creatingAssistant Step.idle
    (by decide) (by decide)

end VapiAgent
